import Mathlib

/-!
Verification of the n8n-py client library against its specification.

The Python source is shallowly embedded: JSON documents become the
inductive type `Json`, Python exceptions become the inductive `PyErr`,
fallible Python code becomes `Except PyErr`, and HTTP transport outcomes
are passed in explicitly.  Definitions are translated from
src/n8n/blueprints.py, src/n8n/client.py and src/n8n/models.py.
-/

namespace N8N

/-- JSON values as produced by json.load.  Python distinguishes int and
float JSON numbers, so the embedding keeps two numeric constructors
(floats are modelled as rationals; no claim depends on IEEE rounding). -/
inductive Json where
  | null : Json
  | bool (b : Bool) : Json
  | str (s : String) : Json
  | jint (n : Int) : Json
  | jfloat (q : ℚ) : Json
  | arr (xs : List Json) : Json
  | obj (kvs : List (String × Json)) : Json

/-- Python object dictionaries (JSON objects, pydantic dict fields). -/
abbrev JObj := List (String × Json)

/-- Python exception classes that the code under src/ can raise, plus
(clearly marked) the error classes that exist only in the words of the
spec.  The spec names BlueprintError, ApiError and ConnectionError; no
such classes are defined anywhere in the repository, so no code path of
the embedding constructs them.  They are included as constructors so the
claims about which class is raised can be stated and refuted. -/
inductive PyErr where
  | keyError (key : String) : PyErr
  | typeError (msg : String) : PyErr
  | attributeError (msg : String) : PyErr
  | validationError (msg : String) : PyErr
  | fileNotFoundError (path : String) : PyErr
  | jsonDecodeError : PyErr
  | transportError (msg : String) : PyErr
  | httpStatusError (status : Nat) (body : String) : PyErr
  | n8nError (msg : String) : PyErr
  | blueprintError (msg : String) : PyErr
  | apiError (status : Nat) (body : String) : PyErr
  | connectionError (msg : String) : PyErr
deriving DecidableEq

/-- Does the exception belong to the BlueprintError class named by the
spec?  The repository defines no BlueprintError, so only the
spec-modelled constructor matches. -/
def PyErr.isBlueprintError : PyErr → Bool
  | .blueprintError _ => true
  | _ => false

/-- Does the exception belong to the ApiError class named by the spec? -/
def PyErr.isApiError : PyErr → Bool
  | .apiError _ _ => true
  | _ => false

/-- Does the exception belong to the ConnectionError class named by the
spec (also a Python builtin, of which N8NError is not a subclass)? -/
def PyErr.isConnectionError : PyErr → Bool
  | .connectionError _ => true
  | _ => false

/-- Is the exception an httpx.HTTPError (superclass of TransportError
and HTTPStatusError), the class caught by the except clauses in
src/n8n/client.py? -/
def PyErr.isHttpxError : PyErr → Bool
  | .transportError _ => true
  | .httpStatusError _ _ => true
  | _ => false

/-- Abridged rendering of str(e) for an exception; the exact httpx
message text is not reproduced (no claim depends on it). -/
def PyErr.pyStr : PyErr → String
  | .keyError k => k
  | .typeError m => m
  | .attributeError m => m
  | .validationError m => m
  | .fileNotFoundError p => "No such file or directory: " ++ p
  | .jsonDecodeError => "Expecting value"
  | .transportError m => m
  | .httpStatusError s _ => "HTTP status error " ++ toString s
  | .n8nError m => m
  | .blueprintError m => m
  | .apiError s _ => "API error " ++ toString s
  | .connectionError m => m

/-- Did the call fail? -/
def isErr : Except PyErr α → Bool
  | .error _ => true
  | .ok _ => false

/-- Did the call fail with the BlueprintError class of the spec? -/
def failsWithBlueprintError : Except PyErr α → Bool
  | .error e => e.isBlueprintError
  | .ok _ => false

/-- Dictionary subscript d[k]: KeyError on a missing key of a dict,
TypeError when the subscripted value is not a dict (string and list
subscripts require integer indices, other values are not subscriptable). -/
def pyGetItem (j : Json) (k : String) : Except PyErr Json :=
  match j with
  | .obj kvs =>
    match kvs.lookup k with
    | some v => .ok v
    | none => .error (.keyError k)
  | .str _ => .error (.typeError "string indices must be integers")
  | .arr _ => .error (.typeError "list indices must be integers")
  | _ => .error (.typeError "object is not subscriptable")

/-- Dictionary d.get(k, default): only dicts have a .get attribute, every
other value raises AttributeError. -/
def pyGetDefault (j : Json) (k : String) (dflt : Json) : Except PyErr Json :=
  match j with
  | .obj kvs => .ok ((kvs.lookup k).getD dflt)
  | _ => .error (.attributeError "object has no attribute get")

/-- Python iteration (for x in j): lists yield elements, strings yield
one-character strings, dicts yield their keys, other values raise
TypeError. -/
def pyIter (j : Json) : Except PyErr (List Json) :=
  match j with
  | .arr xs => .ok xs
  | .str s => .ok (s.data.map (fun c => .str (String.mk [c])))
  | .obj kvs => .ok (kvs.map (fun kv => .str kv.1))
  | _ => .error (.typeError "object is not iterable")

/-- Union[int, float] values (the type of Node.typeVersion). -/
inductive PyNum where
  | pint (n : Int) : PyNum
  | pfloat (q : ℚ) : PyNum
deriving DecidableEq

/-! Pydantic field validation, as used by the models in
src/n8n/models.py.  Lax coercion corner cases that no model in this
repository can reach with JSON input (for example bool-to-int) are
rejected; every claim is settled on inputs where the two agree. -/

/-- Validate a str field: only strings are accepted. -/
def vStr (j : Json) : Except PyErr String :=
  match j with
  | .str s => .ok s
  | _ => .error (.validationError "Input should be a valid string")

/-- Validate a Union[int, float] field: an int stays an int, a float
stays a float. -/
def vNum (j : Json) : Except PyErr PyNum :=
  match j with
  | .jint n => .ok (.pint n)
  | .jfloat q => .ok (.pfloat q)
  | _ => .error (.validationError "Input should be a valid number")

/-- Validate a float field: JSON ints are coerced to float. -/
def vFloat (j : Json) : Except PyErr ℚ :=
  match j with
  | .jint n => .ok (n : ℚ)
  | .jfloat q => .ok q
  | _ => .error (.validationError "Input should be a valid number")

/-- Element-wise validation of a List[float] value. -/
def vFloats : List Json → Except PyErr (List ℚ)
  | [] => .ok []
  | x :: xs => do
    let q ← vFloat x
    let qs ← vFloats xs
    pure (q :: qs)

/-- Validate a List[float] field. -/
def vFloatList (j : Json) : Except PyErr (List ℚ) :=
  match j with
  | .arr xs => vFloats xs
  | _ => .error (.validationError "Input should be a valid list")

/-- Validate a Dict[str, Any] field: only dicts are accepted, kept as is. -/
def vDict (j : Json) : Except PyErr JObj :=
  match j with
  | .obj kvs => .ok kvs
  | _ => .error (.validationError "Input should be a valid dictionary")

/-! The data model of src/n8n/models.py.  Field names, order and default
values follow the pydantic model declarations.  Workflow.connections is
kept as the validated Json value: pydantic rebuilds the same nested
dicts and lists, so the stored value is structurally equal to the
accepted input. -/

/-- Tag model (src/n8n/models.py). -/
structure Tag where
  id : Option String := none
  name : String
  createdAt : Option String := none
  updatedAt : Option String := none

/-- Node model (src/n8n/models.py). -/
structure Node where
  id : String
  name : String
  type : String
  typeVersion : PyNum
  position : List ℚ
  parameters : JObj := []
  webhookId : Option String := none
  disabled : Bool := false
  notesInFlow : Bool := false
  notes : Option String := none
  executeOnce : Bool := false
  alwaysOutputData : Bool := false
  retryOnFail : Bool := false
  maxTries : Option Int := none
  waitBetweenTries : Option Int := none
  continueOnFail : Bool := false
  onError : Option String := none
  credentials : Option JObj := none
  createdAt : Option String := none
  updatedAt : Option String := none

/-- WorkflowSettings model (src/n8n/models.py). -/
structure WorkflowSettings where
  saveExecutionProgress : Bool := true
  saveManualExecutions : Bool := true
  saveDataErrorExecution : String := "all"
  saveDataSuccessExecution : String := "all"
  executionTimeout : Option Int := none
  errorWorkflow : Option String := none
  timezone : Option String := none
  executionOrder : String := "v1"
deriving DecidableEq

/-- Workflow model (src/n8n/models.py).  The connections field has the
Python type Dict[str, Dict[str, List[List[Dict[str, Any]]]]]; the
embedding stores it as the shape-validated Json object. -/
structure Workflow where
  id : Option String := none
  name : String
  nodes : List Node
  connections : Json
  settings : WorkflowSettings := {}
  staticData : JObj := []
  createdAt : Option String := none
  updatedAt : Option String := none

/-- Execution model (src/n8n/models.py). -/
structure Execution where
  id : Int
  data : Option JObj := none
  finished : Bool := false
  mode : String
  retryOf : Option Int := none
  retrySuccessId : Option Int := none
  startedAt : Option String := none
  stoppedAt : Option String := none
  workflowId : Int
  waitTill : Option String := none
  customData : Option JObj := none

/-- Credential model (src/n8n/models.py). -/
structure Credential where
  id : Option String := none
  name : String
  type : String
  data : JObj
  createdAt : Option String := none
  updatedAt : Option String := none

/-- CredentialSchema model (src/n8n/models.py). -/
structure CredentialSchema where
  additionalProperties : Bool := false
  type : String := "object"
  properties : JObj
  required : List String

/-- AuditOptions model (src/n8n/models.py). -/
structure AuditOptions where
  additionalOptions : Option JObj := none

/-- Audit model (src/n8n/models.py).  The last field is named instance
in the source; it is called instanceReport here because instance is a
Lean keyword. -/
structure Audit where
  credentials : Option JObj := none
  database : Option JObj := none
  filesystem : Option JObj := none
  nodes : Option JObj := none
  instanceReport : Option JObj := none

/-- WorkflowList model (src/n8n/models.py). -/
structure WorkflowList where
  data : List Workflow
  nextCursor : Option String := none

/-- ExecutionList model (src/n8n/models.py). -/
structure ExecutionList where
  data : List Execution
  nextCursor : Option String := none

/-- CredentialList model (src/n8n/models.py). -/
structure CredentialList where
  data : List Credential
  nextCursor : Option String := none

/-- TagList model (src/n8n/models.py). -/
structure TagList where
  data : List Tag
  nextCursor : Option String := none

/-! Shape validation of Workflow.connections:
Dict[str, Dict[str, List[List[Dict[str, Any]]]]]. -/

/-- Innermost connection entries must be dicts (Dict[str, Any]). -/
def connCellOk : Json → Bool
  | .obj _ => true
  | _ => false

/-- List[Dict[str, Any]] level. -/
def connListInnerOk : Json → Bool
  | .arr xs => xs.all connCellOk
  | _ => false

/-- List[List[Dict[str, Any]]] level. -/
def connListOuterOk : Json → Bool
  | .arr xs => xs.all connListInnerOk
  | _ => false

/-- Dict[str, List[List[Dict[str, Any]]]] level. -/
def connInnerOk : Json → Bool
  | .obj kvs => kvs.all (fun kv => connListOuterOk kv.2)
  | _ => false

/-- Full shape check for the connections field. -/
def connShapeOk : Json → Bool
  | .obj kvs => kvs.all (fun kv => connInnerOk kv.2)
  | _ => false

/-- Pydantic validation of the Workflow.connections field; a valid value
is stored structurally unchanged. -/
def validateConnections (j : Json) : Except PyErr Json :=
  if connShapeOk j then .ok j
  else .error (.validationError "connections")

/-! The blueprint mapper (src/n8n/blueprints.py). -/

/-- One iteration of the node loop of blueprint_to_workflow: the kwargs
node_data[...] are evaluated left to right (id, name, type, typeVersion,
position, then parameters via .get), after which the Node constructor
validates the fields in declaration order.  Every Node field that is not
passed keeps its model default. -/
def mkBlueprintNode (node_data : Json) : Except PyErr Node := do
  let idJ ← pyGetItem node_data "id"
  let nameJ ← pyGetItem node_data "name"
  let typeJ ← pyGetItem node_data "type"
  let tvJ ← pyGetItem node_data "typeVersion"
  let posJ ← pyGetItem node_data "position"
  let paramsJ ← pyGetDefault node_data "parameters" (.obj [])
  let i ← vStr idJ
  let nm ← vStr nameJ
  let ty ← vStr typeJ
  let tv ← vNum tvJ
  let pos ← vFloatList posJ
  let ps ← vDict paramsJ
  pure { id := i, name := nm, type := ty, typeVersion := tv,
         position := pos, parameters := ps }

/-- The node accumulation loop of blueprint_to_workflow. -/
def mkNodes : List Json → Except PyErr (List Node)
  | [] => .ok []
  | d :: rest => do
    let n ← mkBlueprintNode d
    let ns ← mkNodes rest
    pure (n :: ns)

/-- blueprint_to_workflow (src/n8n/blueprints.py, lines 24-58).  The
order of effects follows the Python source: the nodes loop first, then
the WorkflowSettings construction (which subscripts blueprint with the
key settings unconditionally), then the Workflow constructor arguments
name, connections and staticData, then Workflow field validation. -/
def blueprint_to_workflow (blueprint : Json) : Except PyErr Workflow := do
  let nodesJ ← pyGetItem blueprint "nodes"
  let nodeDicts ← pyIter nodesJ
  let nodes ← mkNodes nodeDicts
  let settingsJ ← pyGetItem blueprint "settings"
  let eoJ ← pyGetDefault settingsJ "executionOrder" (.str "v1")
  let eo ← vStr eoJ
  let settings : WorkflowSettings := { executionOrder := eo }
  let nameJ ← pyGetItem blueprint "name"
  let connJ ← pyGetItem blueprint "connections"
  let staticJ ← pyGetDefault blueprint "staticData" (.obj [])
  let nm ← vStr nameJ
  let conn ← validateConnections connJ
  let sd ← vDict staticJ
  pure { name := nm, nodes := nodes, connections := conn,
         settings := settings, staticData := sd }

/-- load_blueprint (src/n8n/blueprints.py, lines 11-21).  The
filesystem (open) is modelled by fs, mapping a path to the file content
when the file is readable; the json.load stdlib parser is modelled by
parseJson, returning none on a syntax error.  A missing file raises
FileNotFoundError and a parse failure raises json.JSONDecodeError;
the function wraps neither. -/
def load_blueprint (fs : String → Option String)
    (parseJson : String → Option Json) (file_path : String) :
    Except PyErr Json :=
  match fs file_path with
  | none => .error (.fileNotFoundError file_path)
  | some content =>
    match parseJson content with
    | none => .error .jsonDecodeError
    | some j => .ok j

/-! The HTTP layer.  An httpx response is a status code, its raw text
body, and the outcome of response.json() (none when the body is not
valid JSON, in which case response.json() raises json.JSONDecodeError).
The outcome of one underlying httpx call is passed to each embedded
method explicitly, as a value of Except PyErr HRes whose error case
covers transport failures (httpx.TransportError). -/

/-- One HTTP response. -/
structure HRes where
  status : Nat
  text : String
  jsonVal : Option Json

/-- httpx Response.is_success: a 2xx status code. -/
def isSuccessStatus (c : Nat) : Bool :=
  if 200 ≤ c ∧ c < 300 then true else false

/-- httpx Response.raise_for_status: raises HTTPStatusError, carrying
the response (status code and body), whenever the status is not 2xx. -/
def raiseForStatus (r : HRes) : Except PyErr Unit :=
  if isSuccessStatus r.status then .ok ()
  else .error (.httpStatusError r.status r.text)

/-- httpx Response.json: the decoded body, or json.JSONDecodeError. -/
def pyJson (r : HRes) : Except PyErr Json :=
  match r.jsonVal with
  | some j => .ok j
  | none => .error .jsonDecodeError

/-! Serialization for submission: pydantic model_dump / dict with
exclude_none=True drops every field whose value is None and keeps all
other fields, in declaration order. -/

/-- An optional string field under exclude_none. -/
def optStrField (k : String) : Option String → JObj
  | some s => [(k, .str s)]
  | none => []

/-- An optional int field under exclude_none. -/
def optIntField (k : String) : Option Int → JObj
  | some n => [(k, .jint n)]
  | none => []

/-- An optional dict field under exclude_none. -/
def optDictField (k : String) : Option JObj → JObj
  | some kvs => [(k, .obj kvs)]
  | none => []

/-- A Union[int, float] value serialized back to JSON. -/
def pyNumToJson : PyNum → Json
  | .pint n => .jint n
  | .pfloat q => .jfloat q

/-- model_dump(exclude_none=True) of a Node. -/
def dumpNode (n : Node) : Json :=
  .obj
    ([("id", .str n.id), ("name", .str n.name), ("type", .str n.type),
      ("typeVersion", pyNumToJson n.typeVersion),
      ("position", .arr (n.position.map .jfloat)),
      ("parameters", .obj n.parameters)]
     ++ optStrField "webhookId" n.webhookId
     ++ [("disabled", .bool n.disabled), ("notesInFlow", .bool n.notesInFlow)]
     ++ optStrField "notes" n.notes
     ++ [("executeOnce", .bool n.executeOnce),
         ("alwaysOutputData", .bool n.alwaysOutputData),
         ("retryOnFail", .bool n.retryOnFail)]
     ++ optIntField "maxTries" n.maxTries
     ++ optIntField "waitBetweenTries" n.waitBetweenTries
     ++ [("continueOnFail", .bool n.continueOnFail)]
     ++ optStrField "onError" n.onError
     ++ optDictField "credentials" n.credentials
     ++ optStrField "createdAt" n.createdAt
     ++ optStrField "updatedAt" n.updatedAt)

/-- model_dump(exclude_none=True) of WorkflowSettings. -/
def dumpSettings (s : WorkflowSettings) : JObj :=
  [("saveExecutionProgress", .bool s.saveExecutionProgress),
   ("saveManualExecutions", .bool s.saveManualExecutions),
   ("saveDataErrorExecution", .str s.saveDataErrorExecution),
   ("saveDataSuccessExecution", .str s.saveDataSuccessExecution)]
  ++ optIntField "executionTimeout" s.executionTimeout
  ++ optStrField "errorWorkflow" s.errorWorkflow
  ++ optStrField "timezone" s.timezone
  ++ [("executionOrder", .str s.executionOrder)]

/-- Workflow serialization for submission.  With excludeId true this is
workflow.model_dump(exclude_none=True, exclude set to the id field), as
used by WorkflowsClient.create; with excludeId false it is
workflow.dict(exclude_none=True), as used by WorkflowsClient.update,
which keeps a non-None id. -/
def workflowDump (w : Workflow) (excludeId : Bool) : JObj :=
  (if excludeId then [] else optStrField "id" w.id)
  ++ [("name", .str w.name),
      ("nodes", .arr (w.nodes.map dumpNode)),
      ("connections", w.connections),
      ("settings", .obj (dumpSettings w.settings)),
      ("staticData", .obj w.staticData)]
  ++ optStrField "createdAt" w.createdAt
  ++ optStrField "updatedAt" w.updatedAt

/-- tag.dict(exclude_none=True), as used by TagsClient.create. -/
def dumpTag (t : Tag) : JObj :=
  optStrField "id" t.id
  ++ [("name", .str t.name)]
  ++ optStrField "createdAt" t.createdAt
  ++ optStrField "updatedAt" t.updatedAt

/-- credential.dict(exclude_none=True), as used by
CredentialsClient.create. -/
def dumpCredential (c : Credential) : JObj :=
  optStrField "id" c.id
  ++ [("name", .str c.name), ("type", .str c.type), ("data", .obj c.data)]
  ++ optStrField "createdAt" c.createdAt
  ++ optStrField "updatedAt" c.updatedAt

/-- options.dict(exclude_none=True), as used by AuditClient.generate. -/
def dumpAuditOptions (o : AuditOptions) : JObj :=
  optDictField "additionalOptions" o.additionalOptions

/-! Response decoding: pydantic parse_obj / model_validate.  Unknown
extra keys are ignored; a missing required field or a mistyped value is
a ValidationError. -/

/-- Optional[str] field of a parsed object. -/
def getOptStr (kvs : JObj) (k : String) : Except PyErr (Option String) :=
  match kvs.lookup k with
  | none => .ok none
  | some .null => .ok none
  | some (.str s) => .ok (some s)
  | some _ => .error (.validationError k)

/-- Required str field of a parsed object. -/
def getReqStr (kvs : JObj) (k : String) : Except PyErr String :=
  match kvs.lookup k with
  | none => .error (.validationError (k ++ ": Field required"))
  | some j => vStr j

/-- str field with a default. -/
def getStrD (kvs : JObj) (k : String) (d : String) : Except PyErr String :=
  match kvs.lookup k with
  | none => .ok d
  | some j => vStr j

/-- Optional[int] field of a parsed object. -/
def getOptInt (kvs : JObj) (k : String) : Except PyErr (Option Int) :=
  match kvs.lookup k with
  | none => .ok none
  | some .null => .ok none
  | some (.jint n) => .ok (some n)
  | some _ => .error (.validationError k)

/-- Required int field of a parsed object. -/
def getReqInt (kvs : JObj) (k : String) : Except PyErr Int :=
  match kvs.lookup k with
  | none => .error (.validationError (k ++ ": Field required"))
  | some (.jint n) => .ok n
  | some _ => .error (.validationError k)

/-- bool field with a default. -/
def getBoolD (kvs : JObj) (k : String) (d : Bool) : Except PyErr Bool :=
  match kvs.lookup k with
  | none => .ok d
  | some (.bool b) => .ok b
  | some _ => .error (.validationError k)

/-- Optional[Dict[str, Any]] field of a parsed object. -/
def getOptDict (kvs : JObj) (k : String) : Except PyErr (Option JObj) :=
  match kvs.lookup k with
  | none => .ok none
  | some .null => .ok none
  | some (.obj d) => .ok (some d)
  | some _ => .error (.validationError k)

/-- Dict[str, Any] field with default_factory dict. -/
def getDictD (kvs : JObj) (k : String) : Except PyErr JObj :=
  match kvs.lookup k with
  | none => .ok []
  | some (.obj d) => .ok d
  | some _ => .error (.validationError k)

/-- Required Dict[str, Any] field of a parsed object. -/
def getReqDict (kvs : JObj) (k : String) : Except PyErr JObj :=
  match kvs.lookup k with
  | none => .error (.validationError (k ++ ": Field required"))
  | some (.obj d) => .ok d
  | some _ => .error (.validationError k)

/-- Element-wise validation of a List[str] value. -/
def vStrs : List Json → Except PyErr (List String)
  | [] => .ok []
  | x :: xs => do
    let s ← vStr x
    let ss ← vStrs xs
    pure (s :: ss)

/-- Required List[str] field of a parsed object. -/
def getReqStrList (kvs : JObj) (k : String) : Except PyErr (List String) :=
  match kvs.lookup k with
  | none => .error (.validationError (k ++ ": Field required"))
  | some (.arr xs) => vStrs xs
  | some _ => .error (.validationError k)

/-- Tag.parse_obj. -/
def parseTag (j : Json) : Except PyErr Tag := do
  let kvs ← vDict j
  let i ← getOptStr kvs "id"
  let nm ← getReqStr kvs "name"
  let ca ← getOptStr kvs "createdAt"
  let ua ← getOptStr kvs "updatedAt"
  pure { id := i, name := nm, createdAt := ca, updatedAt := ua }

/-- Node.parse_obj (all nineteen fields, in declaration order). -/
def parseNode (j : Json) : Except PyErr Node := do
  let kvs ← vDict j
  let i ← getReqStr kvs "id"
  let nm ← getReqStr kvs "name"
  let ty ← getReqStr kvs "type"
  let tv ← match kvs.lookup "typeVersion" with
    | none => .error (.validationError "typeVersion: Field required")
    | some v => vNum v
  let pos ← match kvs.lookup "position" with
    | none => .error (.validationError "position: Field required")
    | some v => vFloatList v
  let ps ← getDictD kvs "parameters"
  let wh ← getOptStr kvs "webhookId"
  let dis ← getBoolD kvs "disabled" false
  let nif ← getBoolD kvs "notesInFlow" false
  let nts ← getOptStr kvs "notes"
  let eo ← getBoolD kvs "executeOnce" false
  let aod ← getBoolD kvs "alwaysOutputData" false
  let rof ← getBoolD kvs "retryOnFail" false
  let mt ← getOptInt kvs "maxTries"
  let wbt ← getOptInt kvs "waitBetweenTries"
  let cof ← getBoolD kvs "continueOnFail" false
  let onE ← getOptStr kvs "onError"
  let cred ← getOptDict kvs "credentials"
  let ca ← getOptStr kvs "createdAt"
  let ua ← getOptStr kvs "updatedAt"
  pure { id := i, name := nm, type := ty, typeVersion := tv, position := pos,
         parameters := ps, webhookId := wh, disabled := dis,
         notesInFlow := nif, notes := nts, executeOnce := eo,
         alwaysOutputData := aod, retryOnFail := rof, maxTries := mt,
         waitBetweenTries := wbt, continueOnFail := cof, onError := onE,
         credentials := cred, createdAt := ca, updatedAt := ua }

/-- WorkflowSettings.parse_obj. -/
def parseSettings (j : Json) : Except PyErr WorkflowSettings := do
  let kvs ← vDict j
  let sep ← getBoolD kvs "saveExecutionProgress" true
  let sme ← getBoolD kvs "saveManualExecutions" true
  let sde ← getStrD kvs "saveDataErrorExecution" "all"
  let sds ← getStrD kvs "saveDataSuccessExecution" "all"
  let et ← getOptInt kvs "executionTimeout"
  let ew ← getOptStr kvs "errorWorkflow"
  let tz ← getOptStr kvs "timezone"
  let eo ← getStrD kvs "executionOrder" "v1"
  pure { saveExecutionProgress := sep, saveManualExecutions := sme,
         saveDataErrorExecution := sde, saveDataSuccessExecution := sds,
         executionTimeout := et, errorWorkflow := ew, timezone := tz,
         executionOrder := eo }

/-- Element-wise Node parsing of a List[Node] value. -/
def parseNodes : List Json → Except PyErr (List Node)
  | [] => .ok []
  | x :: xs => do
    let n ← parseNode x
    let ns ← parseNodes xs
    pure (n :: ns)

/-- Workflow.parse_obj / Workflow.model_validate. -/
def parseWorkflow (j : Json) : Except PyErr Workflow := do
  let kvs ← vDict j
  let i ← getOptStr kvs "id"
  let nm ← getReqStr kvs "name"
  let nodes ← match kvs.lookup "nodes" with
    | none => .error (.validationError "nodes: Field required")
    | some (.arr xs) => parseNodes xs
    | some _ => .error (.validationError "nodes")
  let conn ← match kvs.lookup "connections" with
    | none => .error (.validationError "connections: Field required")
    | some c => validateConnections c
  let settings ← match kvs.lookup "settings" with
    | none => .ok ({} : WorkflowSettings)
    | some s => parseSettings s
  let sd ← getDictD kvs "staticData"
  let ca ← getOptStr kvs "createdAt"
  let ua ← getOptStr kvs "updatedAt"
  pure { id := i, name := nm, nodes := nodes, connections := conn,
         settings := settings, staticData := sd, createdAt := ca,
         updatedAt := ua }

/-- Execution.parse_obj. -/
def parseExecution (j : Json) : Except PyErr Execution := do
  let kvs ← vDict j
  let i ← getReqInt kvs "id"
  let dat ← getOptDict kvs "data"
  let fin ← getBoolD kvs "finished" false
  let md ← getReqStr kvs "mode"
  let ro ← getOptInt kvs "retryOf"
  let rsi ← getOptInt kvs "retrySuccessId"
  let sa ← getOptStr kvs "startedAt"
  let so ← getOptStr kvs "stoppedAt"
  let wid ← getReqInt kvs "workflowId"
  let wt ← getOptStr kvs "waitTill"
  let cd ← getOptDict kvs "customData"
  pure { id := i, data := dat, finished := fin, mode := md, retryOf := ro,
         retrySuccessId := rsi, startedAt := sa, stoppedAt := so,
         workflowId := wid, waitTill := wt, customData := cd }

/-- Credential.parse_obj. -/
def parseCredential (j : Json) : Except PyErr Credential := do
  let kvs ← vDict j
  let i ← getOptStr kvs "id"
  let nm ← getReqStr kvs "name"
  let ty ← getReqStr kvs "type"
  let dat ← getReqDict kvs "data"
  let ca ← getOptStr kvs "createdAt"
  let ua ← getOptStr kvs "updatedAt"
  pure { id := i, name := nm, type := ty, data := dat, createdAt := ca,
         updatedAt := ua }

/-- CredentialSchema.parse_obj. -/
def parseCredentialSchema (j : Json) : Except PyErr CredentialSchema := do
  let kvs ← vDict j
  let ap ← getBoolD kvs "additionalProperties" false
  let ty ← getStrD kvs "type" "object"
  let props ← getReqDict kvs "properties"
  let req ← getReqStrList kvs "required"
  pure { additionalProperties := ap, type := ty, properties := props,
         required := req }

/-- Audit.parse_obj.  The field named instance in the source is called
instanceReport here because instance is a Lean keyword. -/
def parseAudit (j : Json) : Except PyErr Audit := do
  let kvs ← vDict j
  let cr ← getOptDict kvs "credentials"
  let db ← getOptDict kvs "database"
  let fsx ← getOptDict kvs "filesystem"
  let nds ← getOptDict kvs "nodes"
  let ins ← getOptDict kvs "instance"
  pure { credentials := cr, database := db, filesystem := fsx,
         nodes := nds, instanceReport := ins }

/-- Element-wise Workflow parsing of a list envelope body. -/
def parseWorkflows : List Json → Except PyErr (List Workflow)
  | [] => .ok []
  | x :: xs => do
    let w ← parseWorkflow x
    let ws ← parseWorkflows xs
    pure (w :: ws)

/-- WorkflowList.parse_obj. -/
def parseWorkflowList (j : Json) : Except PyErr WorkflowList := do
  let kvs ← vDict j
  let dat ← match kvs.lookup "data" with
    | none => .error (.validationError "data: Field required")
    | some (.arr xs) => parseWorkflows xs
    | some _ => .error (.validationError "data")
  let nc ← getOptStr kvs "nextCursor"
  pure { data := dat, nextCursor := nc }

/-- Element-wise Execution parsing of a list envelope body. -/
def parseExecutions : List Json → Except PyErr (List Execution)
  | [] => .ok []
  | x :: xs => do
    let e ← parseExecution x
    let es ← parseExecutions xs
    pure (e :: es)

/-- ExecutionList.parse_obj. -/
def parseExecutionList (j : Json) : Except PyErr ExecutionList := do
  let kvs ← vDict j
  let dat ← match kvs.lookup "data" with
    | none => .error (.validationError "data: Field required")
    | some (.arr xs) => parseExecutions xs
    | some _ => .error (.validationError "data")
  let nc ← getOptStr kvs "nextCursor"
  pure { data := dat, nextCursor := nc }

/-- Element-wise Credential parsing of a list envelope body. -/
def parseCredentials : List Json → Except PyErr (List Credential)
  | [] => .ok []
  | x :: xs => do
    let c ← parseCredential x
    let cs ← parseCredentials xs
    pure (c :: cs)

/-- CredentialList.parse_obj. -/
def parseCredentialList (j : Json) : Except PyErr CredentialList := do
  let kvs ← vDict j
  let dat ← match kvs.lookup "data" with
    | none => .error (.validationError "data: Field required")
    | some (.arr xs) => parseCredentials xs
    | some _ => .error (.validationError "data")
  let nc ← getOptStr kvs "nextCursor"
  pure { data := dat, nextCursor := nc }

/-- Element-wise Tag parsing of a list envelope body. -/
def parseTags : List Json → Except PyErr (List Tag)
  | [] => .ok []
  | x :: xs => do
    let t ← parseTag x
    let ts ← parseTags xs
    pure (t :: ts)

/-- TagList.parse_obj. -/
def parseTagList (j : Json) : Except PyErr TagList := do
  let kvs ← vDict j
  let dat ← match kvs.lookup "data" with
    | none => .error (.validationError "data: Field required")
    | some (.arr xs) => parseTags xs
    | some _ => .error (.validationError "data")
  let nc ← getOptStr kvs "nextCursor"
  pure { data := dat, nextCursor := nc }

/-! The client facade (src/n8n/client.py). -/

namespace N8NClient

/-- base_url.rstrip, dropping every trailing slash character
(src/n8n/client.py, line 38). -/
def rstripSlash (s : String) : String :=
  String.mk ((s.data.reverse.dropWhile (fun c => c = '/')).reverse)

/-- N8NClient._get_headers (src/n8n/client.py, lines 69-77): the two
fixed headers, plus the API-key header when self.api_key is truthy
(None and the empty string are falsy). -/
def get_headers (api_key : Option String) : List (String × String) :=
  [("Content-Type", "application/json"), ("Accept", "application/json")]
  ++ (match api_key with
      | some k => if k = "" then [] else [("X-N8N-API-KEY", k)]
      | none => [])

/-- N8NClient._request (src/n8n/client.py, lines 79-115): any
httpx.HTTPError raised by the transport call or by raise_for_status is
caught and re-raised as N8NError with a message; response.json() runs
inside the try block but its json.JSONDecodeError is not an
httpx.HTTPError, so it propagates unwrapped.  The verbose print calls
on failure have no effect on the result and are not modelled. -/
def request (tr : Except PyErr HRes) : Except PyErr Json :=
  match tr with
  | .error e =>
    if e.isHttpxError then
      .error (.n8nError ("API request failed: " ++ e.pyStr))
    else .error e
  | .ok r =>
    match raiseForStatus r with
    | .error e => .error (.n8nError ("API request failed: " ++ e.pyStr))
    | .ok _ => pyJson r

/-- N8NClient._verify_connection (src/n8n/client.py, lines 57-67): a
GET of the workflows listing; any httpx.HTTPError (non-2xx status from
raise_for_status, or a transport failure) is wrapped in N8NError. -/
def verify_connection (tr : Except PyErr HRes) : Except PyErr Unit :=
  match tr with
  | .error e =>
    if e.isHttpxError then
      .error (.n8nError ("Failed to connect to N8N instance: " ++ e.pyStr))
    else .error e
  | .ok r =>
    match raiseForStatus r with
    | .error e =>
      .error (.n8nError ("Failed to connect to N8N instance: " ++ e.pyStr))
    | .ok _ => .ok ()

end N8NClient

/-- The state of a constructed N8NClient: normalized base URL, the URL
the underlying httpx.Client is scoped to, the stored key and timeout,
and the default headers. -/
structure N8NClientState where
  base_url : String
  apiBase : String
  api_key : Option String
  timeout : Int
  headers : List (String × String)

/-- N8NClient.__init__ (src/n8n/client.py, lines 25-55): normalizes the
base URL, builds the headers, scopes the transport to base_url/api/v1,
then performs the connectivity check; the outcome of that check request
is the tr argument.  When the check raises, construction fails and no
client state is produced. -/
def N8NClient.init (base_url : String) (api_key : Option String)
    (timeout : Int) (tr : Except PyErr HRes) : Except PyErr N8NClientState :=
  let burl := N8NClient.rstripSlash base_url
  let headers := N8NClient.get_headers api_key
  match N8NClient.verify_connection tr with
  | .error e => .error e
  | .ok _ =>
    .ok { base_url := burl, apiBase := burl ++ "/api/v1",
          api_key := api_key, timeout := timeout, headers := headers }

/-- Query parameter values. -/
inductive Query where
  | qint (n : Int) : Query
  | qstr (s : String) : Query
  | qbool (b : Bool) : Query
deriving DecidableEq

/-- A query parameter added only when the Python value is truthy
(if cursor: ... patterns in src/n8n/client.py). -/
def truthyParam (k : String) : Option String → List (String × Query)
  | some s => if s = "" then [] else [(k, .qstr s)]
  | none => []

/-! The resource sub-clients (src/n8n/client.py).  Every method holds
the raw httpx.Client and calls response.raise_for_status() itself; none
of them calls N8NClient._request.  Each embedded method takes the
underlying transport as a function from the request it sends (query
parameters, path, or JSON body) to the outcome of the httpx call. -/

namespace WorkflowsClient

/-- WorkflowsClient.list (src/n8n/client.py, lines 158-174). -/
def list (limit : Int) (cursor : Option String)
    (tr : List (String × Query) → Except PyErr HRes) :
    Except PyErr WorkflowList := do
  let params := [("limit", Query.qint limit)] ++ truthyParam "cursor" cursor
  let r ← tr params
  let _ ← raiseForStatus r
  let j ← pyJson r
  parseWorkflowList j

/-- WorkflowsClient.get (src/n8n/client.py, lines 176-187). -/
def get (workflow_id : String) (tr : String → Except PyErr HRes) :
    Except PyErr Workflow := do
  let r ← tr ("/workflows/" ++ workflow_id)
  let _ ← raiseForStatus r
  let j ← pyJson r
  parseWorkflow j

/-- WorkflowsClient.create (src/n8n/client.py, lines 189-208): posts
workflow.model_dump(exclude_none=True, exclude set to the id field) and
decodes the response with Workflow.model_validate. -/
def create (workflow : Workflow) (tr : JObj → Except PyErr HRes) :
    Except PyErr Workflow := do
  let workflow_data := workflowDump workflow true
  let r ← tr workflow_data
  let _ ← raiseForStatus r
  let j ← pyJson r
  parseWorkflow j

/-- WorkflowsClient.update (src/n8n/client.py, lines 210-224): puts
workflow.dict(exclude_none=True), which does not exclude the id field. -/
def update (workflow_id : String) (workflow : Workflow)
    (tr : String → JObj → Except PyErr HRes) : Except PyErr Workflow := do
  let r ← tr ("/workflows/" ++ workflow_id) (workflowDump workflow false)
  let _ ← raiseForStatus r
  let j ← pyJson r
  parseWorkflow j

/-- WorkflowsClient.delete (src/n8n/client.py, lines 226-234). -/
def delete (workflow_id : String) (tr : String → Except PyErr HRes) :
    Except PyErr Unit := do
  let r ← tr ("/workflows/" ++ workflow_id)
  let _ ← raiseForStatus r
  pure ()

end WorkflowsClient

namespace ExecutionsClient

/-- ExecutionsClient.list (src/n8n/client.py, lines 242-272). -/
def list (limit : Int) (cursor status workflow_id : Option String)
    (include_data : Bool)
    (tr : List (String × Query) → Except PyErr HRes) :
    Except PyErr ExecutionList := do
  let params := [("limit", Query.qint limit),
                 ("includeData", Query.qbool include_data)]
    ++ truthyParam "cursor" cursor
    ++ truthyParam "status" status
    ++ truthyParam "workflowId" workflow_id
  let r ← tr params
  let _ ← raiseForStatus r
  let j ← pyJson r
  parseExecutionList j

/-- ExecutionsClient.get (src/n8n/client.py, lines 274-288). -/
def get (execution_id : String) (include_data : Bool)
    (tr : String → List (String × Query) → Except PyErr HRes) :
    Except PyErr Execution := do
  let r ← tr ("/executions/" ++ execution_id)
            [("includeData", Query.qbool include_data)]
  let _ ← raiseForStatus r
  let j ← pyJson r
  parseExecution j

/-- ExecutionsClient.delete (src/n8n/client.py, lines 290-297). -/
def delete (execution_id : String) (tr : String → Except PyErr HRes) :
    Except PyErr Unit := do
  let r ← tr ("/executions/" ++ execution_id)
  let _ ← raiseForStatus r
  pure ()

end ExecutionsClient

namespace CredentialsClient

/-- CredentialsClient.list (src/n8n/client.py, lines 306-322). -/
def list (limit : Int) (cursor : Option String)
    (tr : List (String × Query) → Except PyErr HRes) :
    Except PyErr CredentialList := do
  let params := [("limit", Query.qint limit)] ++ truthyParam "cursor" cursor
  let r ← tr params
  let _ ← raiseForStatus r
  let j ← pyJson r
  parseCredentialList j

/-- CredentialsClient.create (src/n8n/client.py, lines 324-337). -/
def create (credential : Credential) (tr : JObj → Except PyErr HRes) :
    Except PyErr Credential := do
  let r ← tr (dumpCredential credential)
  let _ ← raiseForStatus r
  let j ← pyJson r
  parseCredential j

/-- CredentialsClient.delete (src/n8n/client.py, lines 339-346). -/
def delete (credential_id : String) (tr : String → Except PyErr HRes) :
    Except PyErr Unit := do
  let r ← tr ("/credentials/" ++ credential_id)
  let _ ← raiseForStatus r
  pure ()

/-- CredentialsClient.get_schema (src/n8n/client.py, lines 348-359). -/
def get_schema (credential_type : String)
    (tr : String → Except PyErr HRes) : Except PyErr CredentialSchema := do
  let r ← tr ("/credentials/schema/" ++ credential_type)
  let _ ← raiseForStatus r
  let j ← pyJson r
  parseCredentialSchema j

end CredentialsClient

namespace TagsClient

/-- TagsClient.list (src/n8n/client.py, lines 368-384). -/
def list (limit : Int) (cursor : Option String)
    (tr : List (String × Query) → Except PyErr HRes) :
    Except PyErr TagList := do
  let params := [("limit", Query.qint limit)] ++ truthyParam "cursor" cursor
  let r ← tr params
  let _ ← raiseForStatus r
  let j ← pyJson r
  parseTagList j

/-- TagsClient.create (src/n8n/client.py, lines 386-397). -/
def create (tag : Tag) (tr : JObj → Except PyErr HRes) :
    Except PyErr Tag := do
  let r ← tr (dumpTag tag)
  let _ ← raiseForStatus r
  let j ← pyJson r
  parseTag j

/-- TagsClient.get (src/n8n/client.py, lines 399-410). -/
def get (tag_id : String) (tr : String → Except PyErr HRes) :
    Except PyErr Tag := do
  let r ← tr ("/tags/" ++ tag_id)
  let _ ← raiseForStatus r
  let j ← pyJson r
  parseTag j

/-- TagsClient.delete (src/n8n/client.py, lines 412-419). -/
def delete (tag_id : String) (tr : String → Except PyErr HRes) :
    Except PyErr Unit := do
  let r ← tr ("/tags/" ++ tag_id)
  let _ ← raiseForStatus r
  pure ()

end TagsClient

namespace AuditClient

/-- AuditClient.generate (src/n8n/client.py, lines 136-149): posts the
serialized options, or no body when options is None. -/
def generate (options : Option AuditOptions)
    (tr : Option JObj → Except PyErr HRes) : Except PyErr Audit := do
  let r ← tr (options.map dumpAuditOptions)
  let _ ← raiseForStatus r
  let j ← pyJson r
  parseAudit j

end AuditClient

/-- The name override of create_workflow_from_blueprint
(src/n8n/blueprints.py, lines 80-82): if name: is Python truthiness, so
None and the empty string leave the blueprint name in place. -/
def overrideName (workflow : Workflow) (name : Option String) : Workflow :=
  match name with
  | some s => if s = "" then workflow else { workflow with name := s }
  | none => workflow

/-- create_workflow_from_blueprint (src/n8n/blueprints.py, lines
61-85): load, map, optionally override the name, then submit through
WorkflowsClient.create. -/
def create_workflow_from_blueprint (fs : String → Option String)
    (parseJson : String → Option Json) (file_path : String)
    (name : Option String) (tr : JObj → Except PyErr HRes) :
    Except PyErr Workflow := do
  let blueprint ← load_blueprint fs parseJson file_path
  let workflow ← blueprint_to_workflow blueprint
  let workflow := overrideName workflow name
  WorkflowsClient.create workflow tr

/-! Spec-side definitions.  validNodeDoc and validBlueprintDoc follow
the words of the spec (section 6, blueprint JSON document) and of claim
C1, strengthened in exactly two ways so that a theorem about successful
conversion can be stated: the connections object must have the nested
shape that the Workflow model declares (otherwise pydantic rejects it),
and a present settings.executionOrder or staticData value must have the
declared type.  Whether settings itself may be absent is the point the
claims and the code disagree on, so validBlueprintDoc requires settings
to be present and validBlueprintDocSpec (the literal spec reading)
allows it to be absent. -/

/-- A required string-valued key. -/
def reqStrOk : Option Json → Bool
  | some (.str _) => true
  | _ => false

/-- A required numeric key (int or float). -/
def reqNumOk : Option Json → Bool
  | some (.jint _) => true
  | some (.jfloat _) => true
  | _ => false

/-- A required array-of-numbers key. -/
def reqNumArrOk : Option Json → Bool
  | some (.arr xs) => xs.all (fun x => reqNumOk (some x))
  | _ => false

/-- An optional object-valued key. -/
def optObjOk : Option Json → Bool
  | none => true
  | some (.obj _) => true
  | _ => false

/-- An optional string-valued key. -/
def optStrOk : Option Json → Bool
  | none => true
  | some (.str _) => true
  | _ => false

/-- A node object of a blueprint document, per spec section 6: id,
name, type (strings), typeVersion (number), position (array of
numbers), optional parameters (object). -/
def validNodeDoc : Json → Bool
  | .obj kvs =>
    reqStrOk (kvs.lookup "id") && reqStrOk (kvs.lookup "name")
    && reqStrOk (kvs.lookup "type") && reqNumOk (kvs.lookup "typeVersion")
    && reqNumArrOk (kvs.lookup "position")
    && optObjOk (kvs.lookup "parameters")
  | _ => false

/-- A required nodes key: an array of valid node objects. -/
def nodesDocOk : Option Json → Bool
  | some (.arr xs) => xs.all validNodeDoc
  | _ => false

/-- A required connections key with the declared nested shape. -/
def connDocOk : Option Json → Bool
  | some c => connShapeOk c
  | none => false

/-- A present settings key: an object with an optional string
executionOrder. -/
def settingsDocOk : Option Json → Bool
  | some (.obj skvs) => optStrOk (skvs.lookup "executionOrder")
  | _ => false

/-- A settings key as claim C1 literally reads: optional, and an object
with optional string executionOrder when present. -/
def settingsDocOkSpec : Option Json → Bool
  | some (.obj skvs) => optStrOk (skvs.lookup "executionOrder")
  | none => true
  | some _ => false

/-- A valid blueprint document whose settings key is present; nodes,
name and connections as in spec section 6, connections with the
declared nested shape, staticData optional. -/
def validBlueprintDoc : Json → Bool
  | .obj kvs =>
    reqStrOk (kvs.lookup "name") && nodesDocOk (kvs.lookup "nodes")
    && connDocOk (kvs.lookup "connections")
    && settingsDocOk (kvs.lookup "settings")
    && optObjOk (kvs.lookup "staticData")
  | _ => false

/-- A valid blueprint document as claim C1 literally reads: identical
to validBlueprintDoc except that the settings key may also be absent. -/
def validBlueprintDocSpec : Json → Bool
  | .obj kvs =>
    reqStrOk (kvs.lookup "name") && nodesDocOk (kvs.lookup "nodes")
    && connDocOk (kvs.lookup "connections")
    && settingsDocOkSpec (kvs.lookup "settings")
    && optObjOk (kvs.lookup "staticData")
  | _ => false

/-! Concrete inputs used by the claims. -/

/-- A minimal blueprint that is valid per claim C1 (name, nodes and
connections present, settings absent as the claim allows). -/
def bpNoSettings : Json :=
  .obj [("name", .str "My workflow"), ("nodes", .arr []),
        ("connections", .obj [])]

/-- The connections object of the example blueprint of claim C7. -/
def conn7 : Json :=
  .obj [("Manual Trigger",
         .obj [("main",
                .arr [.arr [.obj [("node", .str "Execute Command"),
                                  ("type", .str "main"),
                                  ("index", .jint 0)]]])])]

/-- The example blueprint of claim C7 (exactly as given there: no
settings key). -/
def bp7 : Json :=
  .obj [("name", .str "My workflow"),
        ("nodes",
         .arr [.obj [("id", .str "1"), ("name", .str "Manual Trigger"),
                     ("type", .str "n8n-nodes-base.manualTrigger"),
                     ("typeVersion", .jint 1),
                     ("position", .arr [.jint 0, .jint 0])],
               .obj [("id", .str "2"), ("name", .str "Execute Command"),
                     ("type", .str "n8n-nodes-base.executeCommand"),
                     ("typeVersion", .jint 1),
                     ("position", .arr [.jint 200, .jint 0])]]),
        ("connections", conn7)]

/-- The example blueprint of claim C7 with an empty settings object
added: the minimal change that lets the conversion run. -/
def bp7settings : Json :=
  .obj [("name", .str "My workflow"),
        ("nodes",
         .arr [.obj [("id", .str "1"), ("name", .str "Manual Trigger"),
                     ("type", .str "n8n-nodes-base.manualTrigger"),
                     ("typeVersion", .jint 1),
                     ("position", .arr [.jint 0, .jint 0])],
               .obj [("id", .str "2"), ("name", .str "Execute Command"),
                     ("type", .str "n8n-nodes-base.executeCommand"),
                     ("typeVersion", .jint 1),
                     ("position", .arr [.jint 200, .jint 0])]]),
        ("connections", conn7),
        ("settings", .obj [])]

/-- The Workflow that blueprint_to_workflow produces on bp7settings. -/
def w7 : Workflow :=
  { name := "My workflow",
    nodes :=
      [{ id := "1", name := "Manual Trigger",
         type := "n8n-nodes-base.manualTrigger", typeVersion := .pint 1,
         position := [((0 : Int) : ℚ), ((0 : Int) : ℚ)] },
       { id := "2", name := "Execute Command",
         type := "n8n-nodes-base.executeCommand", typeVersion := .pint 1,
         position := [((200 : Int) : ℚ), ((0 : Int) : ℚ)] }],
    connections := conn7 }

/-- A concrete Workflow with a set id, used to examine the bodies that
create and update submit. -/
def wWithId : Workflow :=
  { id := some "abc", name := "W", nodes := [], connections := .obj [] }

/-- A concrete non-2xx response. -/
def r404 : HRes := { status := 404, text := "not found", jsonVal := none }

/-- A concrete 500 response for the connectivity check. -/
def r500 : HRes := { status := 500, text := "boom", jsonVal := none }

/-- A concrete Tag for instantiating sub-client calls. -/
def tag1 : Tag := { name := "t" }

/-- A concrete Credential for instantiating sub-client calls. -/
def cred1 : Credential := { name := "c", type := "ct", data := [] }

/-- The call never fails with the BlueprintError class of the spec. -/
def NoBlueprintError {α : Type} (x : Except PyErr α) : Prop :=
  ∀ e, x = Except.error e → e.isBlueprintError = false

/-- The properties claim C1 asserts of a converted blueprint with
top-level keys kvs: conversion succeeds, the node count is preserved,
the connections object is returned structurally unchanged, and
settings.executionOrder is taken from the blueprint settings when
present and defaults to v1 otherwise. -/
def C1Props (kvs : JObj) : Prop :=
  ∃ w, blueprint_to_workflow (.obj kvs) = .ok w
    ∧ (∀ xs, kvs.lookup "nodes" = some (.arr xs) →
        w.nodes.length = xs.length)
    ∧ kvs.lookup "connections" = some w.connections
    ∧ (∀ skvs, kvs.lookup "settings" = some (.obj skvs) →
        ((skvs.lookup "executionOrder" = none →
           w.settings.executionOrder = "v1")
         ∧ (∀ eo, skvs.lookup "executionOrder" = some (.str eo) →
             w.settings.executionOrder = eo)))

/-- Claim C9, first half: all fourteen Node fields that
blueprint_to_workflow does not pass to the Node constructor carry their
model defaults. -/
def C9Defaults (n : Node) : Prop :=
  n.webhookId = none ∧ n.disabled = false ∧ n.notesInFlow = false
  ∧ n.notes = none ∧ n.executeOnce = false ∧ n.alwaysOutputData = false
  ∧ n.retryOnFail = false ∧ n.maxTries = none ∧ n.waitBetweenTries = none
  ∧ n.continueOnFail = false ∧ n.onError = none ∧ n.credentials = none
  ∧ n.createdAt = none ∧ n.updatedAt = none

/-- Claim C9, second half: the six copied fields come from the
blueprint node object (parameters defaulting to an empty mapping when
the key is absent). -/
def C9Sourcing (d : Json) (n : Node) : Prop :=
  ∃ kvs, d = .obj kvs
    ∧ kvs.lookup "id" = some (.str n.id)
    ∧ kvs.lookup "name" = some (.str n.name)
    ∧ kvs.lookup "type" = some (.str n.type)
    ∧ kvs.lookup "typeVersion" = some (pyNumToJson n.typeVersion)
    ∧ (∃ pj, kvs.lookup "position" = some pj ∧ vFloatList pj = .ok n.position)
    ∧ (kvs.lookup "parameters" = some (.obj n.parameters)
       ∨ (kvs.lookup "parameters" = none ∧ n.parameters = []))

/-- A blueprint node object that also specifies values for Node fields
the mapper does not copy (disabled, notes, retryOnFail). -/
def nodeDocOverspecified : Json :=
  .obj [("id", .str "9"), ("name", .str "Step"), ("type", .str "x.y"),
        ("typeVersion", .jint 2), ("position", .arr [.jint 1, .jint 2]),
        ("parameters", .obj [("a", .jint 1)]),
        ("disabled", .bool true), ("notes", .str "hello"),
        ("retryOnFail", .bool true)]

/-- The Node produced from nodeDocOverspecified: the extra keys are
ignored and every uncopied field keeps its default. -/
def n9 : Node :=
  { id := "9", name := "Step", type := "x.y", typeVersion := .pint 2,
    position := [((1 : Int) : ℚ), ((2 : Int) : ℚ)],
    parameters := [("a", .jint 1)] }

/-- Top-level keys of a valid blueprint with settings.executionOrder
and staticData present, used to instantiate the claim C1 theorem. -/
def bpC1kvs : JObj :=
  [("name", .str "Wf"),
   ("nodes", .arr [.obj [("id", .str "1"), ("name", .str "A"),
                         ("type", .str "t"), ("typeVersion", .jint 1),
                         ("position", .arr [.jint 0, .jint 0])]]),
   ("connections", .obj []),
   ("settings", .obj [("executionOrder", .str "v0")]),
   ("staticData", .obj [("k", .bool true)])]

/-! Helper lemmas. -/

/-- Bind on a successful Except computation. -/
theorem exBind_ok {α β : Type} (a : α) (f : α → Except PyErr β) :
    (Except.ok a >>= f) = f a := rfl

/-- Bind on a failed Except computation. -/
theorem exBind_error {α β : Type} (e : PyErr) (f : α → Except PyErr β) :
    ((Except.error e : Except PyErr α) >>= f) = .error e := rfl

/-- Pure is ok for Except. -/
theorem exPure {α : Type} (a : α) : (pure a : Except PyErr α) = .ok a := rfl

/-- A successful computation never fails with BlueprintError. -/
theorem noBp_ok {α : Type} (a : α) :
    NoBlueprintError (Except.ok a) :=
  fun _ he => Except.noConfusion he

/-- Pure computations never fail with BlueprintError. -/
theorem noBp_pure {α : Type} (a : α) :
    NoBlueprintError (pure a : Except PyErr α) :=
  noBp_ok a

/-- A failure with any class other than BlueprintError. -/
theorem noBp_error {α : Type} {e0 : PyErr} (h : e0.isBlueprintError = false) :
    NoBlueprintError (Except.error e0 : Except PyErr α) := by
  intro e he
  injection he with h1
  rw [← h1]
  exact h

/-- NoBlueprintError is preserved by bind. -/
theorem noBp_bind {α β : Type} {x : Except PyErr α}
    {f : α → Except PyErr β} (hx : NoBlueprintError x)
    (hf : ∀ a, NoBlueprintError (f a)) : NoBlueprintError (x >>= f) := by
  intro e he
  cases x with
  | error e0 =>
    rw [exBind_error] at he
    injection he with h1
    subst h1
    exact hx e0 rfl
  | ok a => rw [exBind_ok] at he; exact hf a e he

/-- pyGetItem raises KeyError or TypeError, never BlueprintError. -/
theorem noBp_pyGetItem (j : Json) (k : String) :
    NoBlueprintError (pyGetItem j k) := by
  intro e he
  unfold pyGetItem at he
  split at he <;> try split at he
  all_goals try exact Except.noConfusion he
  all_goals (injection he with h1; subst h1; rfl)

/-- pyGetDefault raises AttributeError, never BlueprintError. -/
theorem noBp_pyGetDefault (j : Json) (k : String) (d : Json) :
    NoBlueprintError (pyGetDefault j k d) := by
  intro e he
  unfold pyGetDefault at he
  split at he
  all_goals try exact Except.noConfusion he
  all_goals (injection he with h1; subst h1; rfl)

/-- pyIter raises TypeError, never BlueprintError. -/
theorem noBp_pyIter (j : Json) : NoBlueprintError (pyIter j) := by
  intro e he
  unfold pyIter at he
  split at he
  all_goals try exact Except.noConfusion he
  all_goals (injection he with h1; subst h1; rfl)

/-- vStr raises ValidationError, never BlueprintError. -/
theorem noBp_vStr (j : Json) : NoBlueprintError (vStr j) := by
  intro e he
  unfold vStr at he
  split at he
  all_goals try exact Except.noConfusion he
  all_goals (injection he with h1; subst h1; rfl)

/-- vNum raises ValidationError, never BlueprintError. -/
theorem noBp_vNum (j : Json) : NoBlueprintError (vNum j) := by
  intro e he
  unfold vNum at he
  split at he
  all_goals try exact Except.noConfusion he
  all_goals (injection he with h1; subst h1; rfl)

/-- vFloat raises ValidationError, never BlueprintError. -/
theorem noBp_vFloat (j : Json) : NoBlueprintError (vFloat j) := by
  intro e he
  unfold vFloat at he
  split at he
  all_goals try exact Except.noConfusion he
  all_goals (injection he with h1; subst h1; rfl)

/-- vFloats raises ValidationError, never BlueprintError. -/
theorem noBp_vFloats (l : List Json) : NoBlueprintError (vFloats l) := by
  induction l with
  | nil => exact noBp_pure []
  | cons x xs ih =>
    unfold vFloats
    exact noBp_bind (noBp_vFloat x) fun q =>
      noBp_bind ih fun qs => noBp_pure (q :: qs)

/-- vFloatList raises ValidationError, never BlueprintError. -/
theorem noBp_vFloatList (j : Json) : NoBlueprintError (vFloatList j) := by
  unfold vFloatList
  cases j
  case arr xs => exact noBp_vFloats xs
  all_goals exact noBp_error rfl

/-- vDict raises ValidationError, never BlueprintError. -/
theorem noBp_vDict (j : Json) : NoBlueprintError (vDict j) := by
  intro e he
  unfold vDict at he
  split at he
  all_goals try exact Except.noConfusion he
  all_goals (injection he with h1; subst h1; rfl)

/-- validateConnections raises ValidationError, never BlueprintError. -/
theorem noBp_validateConnections (j : Json) :
    NoBlueprintError (validateConnections j) := by
  intro e he
  unfold validateConnections at he
  split at he
  all_goals try exact Except.noConfusion he
  all_goals (injection he with h1; subst h1; rfl)

/-- mkBlueprintNode never raises BlueprintError. -/
theorem noBp_mkBlueprintNode (d : Json) :
    NoBlueprintError (mkBlueprintNode d) := by
  unfold mkBlueprintNode
  exact noBp_bind (noBp_pyGetItem d "id") fun idJ =>
    noBp_bind (noBp_pyGetItem d "name") fun nameJ =>
    noBp_bind (noBp_pyGetItem d "type") fun typeJ =>
    noBp_bind (noBp_pyGetItem d "typeVersion") fun tvJ =>
    noBp_bind (noBp_pyGetItem d "position") fun posJ =>
    noBp_bind (noBp_pyGetDefault d "parameters" (.obj [])) fun paramsJ =>
    noBp_bind (noBp_vStr idJ) fun i =>
    noBp_bind (noBp_vStr nameJ) fun nm =>
    noBp_bind (noBp_vStr typeJ) fun ty =>
    noBp_bind (noBp_vNum tvJ) fun tv =>
    noBp_bind (noBp_vFloatList posJ) fun pos =>
    noBp_bind (noBp_vDict paramsJ) fun ps =>
    noBp_pure _

/-- mkNodes never raises BlueprintError. -/
theorem noBp_mkNodes (l : List Json) : NoBlueprintError (mkNodes l) := by
  induction l with
  | nil => exact noBp_pure []
  | cons d rest ih =>
    unfold mkNodes
    exact noBp_bind (noBp_mkBlueprintNode d) fun n =>
      noBp_bind ih fun ns => noBp_pure (n :: ns)

/-- blueprint_to_workflow never raises the BlueprintError class the
spec names: every failure belongs to another exception class. -/
theorem noBp_blueprint_to_workflow (b : Json) :
    NoBlueprintError (blueprint_to_workflow b) := by
  unfold blueprint_to_workflow
  exact noBp_bind (noBp_pyGetItem b "nodes") fun nodesJ =>
    noBp_bind (noBp_pyIter nodesJ) fun nodeDicts =>
    noBp_bind (noBp_mkNodes nodeDicts) fun nodes =>
    noBp_bind (noBp_pyGetItem b "settings") fun settingsJ =>
    noBp_bind (noBp_pyGetDefault settingsJ "executionOrder" (.str "v1"))
      fun eoJ =>
    noBp_bind (noBp_vStr eoJ) fun eo =>
    noBp_bind (noBp_pyGetItem b "name") fun nameJ =>
    noBp_bind (noBp_pyGetItem b "connections") fun connJ =>
    noBp_bind (noBp_pyGetDefault b "staticData" (.obj [])) fun staticJ =>
    noBp_bind (noBp_vStr nameJ) fun nm =>
    noBp_bind (noBp_validateConnections connJ) fun conn =>
    noBp_bind (noBp_vDict staticJ) fun sd =>
    noBp_pure _

/-- When the conversion of a blueprint dictionary succeeds, the keys
nodes, settings, name and connections were all present. -/
theorem btw_ok_keys {kvs : JObj} {w : Workflow}
    (h : blueprint_to_workflow (.obj kvs) = .ok w) :
    (kvs.lookup "nodes").isSome ∧ (kvs.lookup "settings").isSome
    ∧ (kvs.lookup "name").isSome ∧ (kvs.lookup "connections").isSome := by
  unfold blueprint_to_workflow at h
  cases h1 : kvs.lookup "nodes" with
  | none => simp [pyGetItem, h1, exBind_error] at h
  | some v =>
  simp only [pyGetItem, h1, exBind_ok] at h
  cases h2 : pyIter v with
  | error e => simp [h2, exBind_error] at h
  | ok l =>
  simp only [h2, exBind_ok] at h
  cases h3 : mkNodes l with
  | error e => simp [h3, exBind_error] at h
  | ok ns =>
  simp only [h3, exBind_ok] at h
  cases h4 : kvs.lookup "settings" with
  | none => simp [pyGetItem, h4, exBind_error] at h
  | some s =>
  simp only [pyGetItem, h4, exBind_ok] at h
  cases h5 : pyGetDefault s "executionOrder" (.str "v1") with
  | error e => simp [h5, exBind_error] at h
  | ok eoJ =>
  simp only [h5, exBind_ok] at h
  cases h6 : vStr eoJ with
  | error e => simp [h6, exBind_error] at h
  | ok eo =>
  simp only [h6, exBind_ok] at h
  cases h7 : kvs.lookup "name" with
  | none => simp [pyGetItem, h7, exBind_error] at h
  | some nmJ =>
  cases h8 : kvs.lookup "connections" with
  | none => simp [pyGetItem, h7, h8, exBind_error, exBind_ok] at h
  | some c =>
  exact ⟨by simp [h1], by simp [h4], by simp [h7], by simp [h8]⟩

/-- Claim C3 (corrected): for every input dictionary lacking the key
nodes, name, or connections, blueprint_to_workflow fails, but the error
raised is never the BlueprintError class the claim names (the
repository defines no such class; the failure is the KeyError raised by
the first missing subscript that is reached, or an earlier untyped
error from malformed nodes or settings). -/
theorem claim_c3 (kvs : JObj)
    (h : kvs.lookup "nodes" = none ∨ kvs.lookup "name" = none
         ∨ kvs.lookup "connections" = none) :
    isErr (blueprint_to_workflow (.obj kvs)) = true
    ∧ failsWithBlueprintError (blueprint_to_workflow (.obj kvs)) = false := by
  constructor
  · cases hres : blueprint_to_workflow (.obj kvs) with
    | ok w =>
      have hk := btw_ok_keys hres
      rcases h with h | h | h <;> simp [h] at hk
    | error e => rfl
  · cases hres : blueprint_to_workflow (.obj kvs) with
    | ok w => rfl
    | error e => exact noBp_blueprint_to_workflow (.obj kvs) e hres

/-- Counterexample to claim C3 as stated: the empty dictionary lacks
the key nodes, and blueprint_to_workflow raises KeyError, which is not
a BlueprintError. -/
theorem c3_counterexample :
    blueprint_to_workflow (.obj []) = .error (.keyError "nodes")
    ∧ failsWithBlueprintError (blueprint_to_workflow (.obj [])) = false :=
  ⟨rfl, rfl⟩

/-- Witness for claim C3 at a dictionary that has a name but no nodes
key. -/
theorem c3_witness :
    isErr (blueprint_to_workflow (.obj [("name", Json.str "x")])) = true
    ∧ failsWithBlueprintError
        (blueprint_to_workflow (.obj [("name", Json.str "x")])) = false :=
  claim_c3 [("name", .str "x")] (Or.inl rfl)

/-- Claim C4 (corrected): load_blueprint fails on a missing file with
the underlying FileNotFoundError and on a parse failure with the
underlying json.JSONDecodeError; neither is wrapped in the
BlueprintError class the claim names (the repository defines no such
class).  On a readable, parseable file it returns the parsed document. -/
theorem claim_c4 (fs : String → Option String)
    (parseJson : String → Option Json) (p : String) :
    (fs p = none →
      load_blueprint fs parseJson p = .error (.fileNotFoundError p)
      ∧ failsWithBlueprintError (load_blueprint fs parseJson p) = false)
    ∧ (∀ s, fs p = some s → parseJson s = none →
        load_blueprint fs parseJson p = .error .jsonDecodeError
        ∧ failsWithBlueprintError (load_blueprint fs parseJson p) = false)
    ∧ (∀ s j, fs p = some s → parseJson s = some j →
        load_blueprint fs parseJson p = .ok j) := by
  refine ⟨fun h => ?_, ⟨fun s h1 h2 => ?_, fun s j h1 h2 => ?_⟩⟩
  · simp [load_blueprint, h, failsWithBlueprintError, PyErr.isBlueprintError]
  · simp [load_blueprint, h1, h2, failsWithBlueprintError,
      PyErr.isBlueprintError]
  · simp [load_blueprint, h1, h2]

/-- Counterexample to claim C4 as stated: a missing file makes
load_blueprint raise FileNotFoundError, not a BlueprintError wrapping
it. -/
theorem c4_counterexample :
    load_blueprint (fun _ => none) (fun _ => none) "missing.json"
      = .error (.fileNotFoundError "missing.json")
    ∧ failsWithBlueprintError
        (load_blueprint (fun _ => none) (fun _ => none) "missing.json")
      = false :=
  ⟨rfl, rfl⟩

/-- Witness for claim C4 at a readable file whose content is not valid
JSON. -/
theorem c4_witness :
    load_blueprint (fun _ => some "bad") (fun _ => none) "f.json"
      = .error .jsonDecodeError
    ∧ failsWithBlueprintError
        (load_blueprint (fun _ => some "bad") (fun _ => none) "f.json")
      = false :=
  (claim_c4 (fun _ => some "bad") (fun _ => none) "f.json").2.1 "bad" rfl rfl

/-- Unfolding a true reqStrOk check. -/
theorem reqStrOk_some {o : Option Json} (h : reqStrOk o = true) :
    ∃ s, o = some (.str s) := by
  cases o with
  | none => exact absurd h (by simp [reqStrOk])
  | some j =>
    cases j
    case str s => exact ⟨s, rfl⟩
    all_goals exact absurd h (by simp [reqStrOk])

/-- Unfolding a true reqNumOk check: the value exists and validates as
a Union[int, float]. -/
theorem reqNumOk_some {o : Option Json} (h : reqNumOk o = true) :
    ∃ j, o = some j ∧ ∃ v, vNum j = Except.ok v := by
  cases o with
  | none => exact absurd h (by simp [reqNumOk])
  | some j =>
    cases j
    case jint n => exact ⟨.jint n, rfl, .pint n, rfl⟩
    case jfloat q => exact ⟨.jfloat q, rfl, .pfloat q, rfl⟩
    all_goals exact absurd h (by simp [reqNumOk])

/-- All elements of a numeric array validate as floats. -/
theorem vFloats_ok {xs : List Json}
    (h : xs.all (fun x => reqNumOk (some x)) = true) :
    ∃ qs, vFloats xs = .ok qs := by
  induction xs with
  | nil => exact ⟨[], rfl⟩
  | cons x t ih =>
    simp only [List.all_cons, Bool.and_eq_true] at h
    obtain ⟨hx, ht⟩ := h
    obtain ⟨qs, hqs⟩ := ih ht
    cases x
    case jint n =>
      exact ⟨(n : ℚ) :: qs, by simp [vFloats, vFloat, hqs, exBind_ok, exPure]⟩
    case jfloat q =>
      exact ⟨q :: qs, by simp [vFloats, vFloat, hqs, exBind_ok, exPure]⟩
    all_goals exact absurd hx (by simp [reqNumOk])

/-- Unfolding a true reqNumArrOk check: the position array exists and
validates as List[float]. -/
theorem reqNumArrOk_some {o : Option Json} (h : reqNumArrOk o = true) :
    ∃ xs, o = some (.arr xs) ∧ ∃ qs, vFloatList (.arr xs) = .ok qs := by
  cases o with
  | none => exact absurd h (by simp [reqNumArrOk])
  | some j =>
    cases j
    case arr xs =>
      simp only [reqNumArrOk] at h
      obtain ⟨qs, hqs⟩ := vFloats_ok h
      exact ⟨xs, rfl, qs, by simp [vFloatList, hqs]⟩
    all_goals exact absurd h (by simp [reqNumArrOk])

/-- Unfolding a true optObjOk check. -/
theorem optObjOk_cases {o : Option Json} (h : optObjOk o = true) :
    o = none ∨ ∃ kvs, o = some (.obj kvs) := by
  cases o with
  | none => exact Or.inl rfl
  | some j =>
    cases j
    case obj kvs => exact Or.inr ⟨kvs, rfl⟩
    all_goals exact absurd h (by simp [optObjOk])

/-- Unfolding a true optStrOk check. -/
theorem optStrOk_cases {o : Option Json} (h : optStrOk o = true) :
    o = none ∨ ∃ s, o = some (.str s) := by
  cases o with
  | none => exact Or.inl rfl
  | some j =>
    cases j
    case str s => exact Or.inr ⟨s, rfl⟩
    all_goals exact absurd h (by simp [optStrOk])

/-- Unfolding a true nodesDocOk check. -/
theorem nodesDocOk_some {o : Option Json} (h : nodesDocOk o = true) :
    ∃ xs, o = some (.arr xs) ∧ xs.all validNodeDoc = true := by
  cases o with
  | none => exact absurd h (by simp [nodesDocOk])
  | some j =>
    cases j
    case arr xs => exact ⟨xs, rfl, h⟩
    all_goals exact absurd h (by simp [nodesDocOk])

/-- Unfolding a true connDocOk check. -/
theorem connDocOk_some {o : Option Json} (h : connDocOk o = true) :
    ∃ c, o = some c ∧ connShapeOk c = true := by
  cases o with
  | none => exact absurd h (by simp [connDocOk])
  | some c => exact ⟨c, rfl, h⟩

/-- Unfolding a true settingsDocOk check. -/
theorem settingsDocOk_some {o : Option Json} (h : settingsDocOk o = true) :
    ∃ skvs, o = some (.obj skvs)
      ∧ optStrOk (skvs.lookup "executionOrder") = true := by
  cases o with
  | none => exact absurd h (by simp [settingsDocOk])
  | some j =>
    cases j
    case obj skvs => exact ⟨skvs, rfl, h⟩
    all_goals exact absurd h (by simp [settingsDocOk])

/-- A valid blueprint node object converts successfully. -/
theorem mkBlueprintNode_ok {d : Json} (h : validNodeDoc d = true) :
    ∃ n, mkBlueprintNode d = .ok n := by
  cases d
  case obj dkvs =>
    simp only [validNodeDoc, Bool.and_eq_true] at h
    obtain ⟨⟨⟨⟨⟨hid, hnm⟩, hty⟩, htv⟩, hpos⟩, hpar⟩ := h
    obtain ⟨ids, hid'⟩ := reqStrOk_some hid
    obtain ⟨nms, hnm'⟩ := reqStrOk_some hnm
    obtain ⟨tys, hty'⟩ := reqStrOk_some hty
    obtain ⟨tvJ, htv', tv, htv2⟩ := reqNumOk_some htv
    obtain ⟨posxs, hpos', qs, hpos2⟩ := reqNumArrOk_some hpos
    rcases optObjOk_cases hpar with hp | ⟨pkvs, hp⟩
    · exact ⟨{ id := ids, name := nms, type := tys, typeVersion := tv,
               position := qs, parameters := [] },
        by simp [mkBlueprintNode, pyGetItem, pyGetDefault, hid', hnm',
          hty', htv', hpos', hp, vStr, htv2, hpos2, vDict, exBind_ok,
          exPure]⟩
    · exact ⟨{ id := ids, name := nms, type := tys, typeVersion := tv,
               position := qs, parameters := pkvs },
        by simp [mkBlueprintNode, pyGetItem, pyGetDefault, hid', hnm',
          hty', htv', hpos', hp, vStr, htv2, hpos2, vDict, exBind_ok,
          exPure]⟩
  all_goals exact absurd h (by simp [validNodeDoc])

/-- A list of valid blueprint node objects converts successfully and
preserves its length. -/
theorem mkNodes_ok {l : List Json} (h : l.all validNodeDoc = true) :
    ∃ ns, mkNodes l = .ok ns ∧ ns.length = l.length := by
  induction l with
  | nil => exact ⟨[], rfl, rfl⟩
  | cons d t ih =>
    simp only [List.all_cons, Bool.and_eq_true] at h
    obtain ⟨hd, ht⟩ := h
    obtain ⟨n, hn⟩ := mkBlueprintNode_ok hd
    obtain ⟨ns, hns, hlen⟩ := ih ht
    exact ⟨n :: ns, by simp [mkNodes, hn, hns, exBind_ok, exPure],
      by simp [hlen]⟩

/-- Claim C1 (code bug): the claim quantifies over valid blueprint
documents in which settings is optional, but blueprint_to_workflow
subscripts the settings key unconditionally, so a valid document
without settings raises KeyError instead of returning a Workflow (first
conjunct, witnessed by bpNoSettings, which validBlueprintDocSpec
accepts).  For every valid blueprint document whose settings key is
present, the claimed properties do hold: conversion succeeds, the node
count is preserved, connections is returned structurally unchanged, and
settings.executionOrder is the blueprint value when present and v1
otherwise (second conjunct). -/
theorem claim_c1 :
    (validBlueprintDocSpec bpNoSettings = true
     ∧ blueprint_to_workflow bpNoSettings = .error (.keyError "settings"))
    ∧ ∀ kvs, validBlueprintDoc (.obj kvs) = true → C1Props kvs := by
  refine ⟨⟨rfl, rfl⟩, fun kvs h => ?_⟩
  simp only [validBlueprintDoc, Bool.and_eq_true] at h
  obtain ⟨⟨⟨⟨hnm, hnd⟩, hcn⟩, hst⟩, hsd⟩ := h
  obtain ⟨nm, hnm'⟩ := reqStrOk_some hnm
  obtain ⟨xs, hx, hxall⟩ := nodesDocOk_some hnd
  obtain ⟨ns, hns, hlen⟩ := mkNodes_ok hxall
  obtain ⟨c, hc, hcsh⟩ := connDocOk_some hcn
  obtain ⟨skvs, hs, hseo⟩ := settingsDocOk_some hst
  have heoEx : ∃ eoVal,
      pyGetDefault (.obj skvs) "executionOrder" (.str "v1") = .ok (.str eoVal)
      ∧ (skvs.lookup "executionOrder" = none → eoVal = "v1")
      ∧ ∀ e0, skvs.lookup "executionOrder" = some (.str e0) → eoVal = e0 := by
    rcases optStrOk_cases hseo with heo | ⟨eo, heo⟩
    · exact ⟨"v1", by simp [pyGetDefault, heo], fun _ => rfl,
        fun e0 h0 => by rw [heo] at h0; cases h0⟩
    · refine ⟨eo, by simp [pyGetDefault, heo], ?_, ?_⟩
      · intro h0
        rw [heo] at h0
        cases h0
      · intro e0 h0
        rw [heo] at h0
        injection h0 with h1
        injection h1 with h2
  have hsdEx : ∃ sdVal,
      pyGetDefault (.obj kvs) "staticData" (.obj []) = .ok (.obj sdVal) := by
    rcases optObjOk_cases hsd with h0 | ⟨z, h0⟩
    · exact ⟨[], by simp [pyGetDefault, h0]⟩
    · exact ⟨z, by simp [pyGetDefault, h0]⟩
  obtain ⟨eoVal, heoJ, heoNone, heoSome⟩ := heoEx
  obtain ⟨sdVal, hsdJ⟩ := hsdEx
  refine ⟨{ name := nm, nodes := ns, connections := c,
            settings := { executionOrder := eoVal }, staticData := sdVal },
    ?_, ?_, ?_, ?_⟩
  · simp [blueprint_to_workflow, pyGetItem, pyIter, hx, hns, hs, heoJ,
      vStr, hnm', hc, validateConnections, hcsh, hsdJ, vDict, exBind_ok,
      exPure]
  · intro xs' hxs'
    rw [hx] at hxs'
    injection hxs' with h1
    injection h1 with h2
    subst h2
    exact hlen
  · exact hc
  · intro skvs' hs'
    rw [hs] at hs'
    injection hs' with h1
    injection h1 with h2
    subst h2
    exact ⟨fun h0 => heoNone h0, fun eo' heo' => heoSome eo' heo'⟩

/-- Witness for the universally quantified half of claim C1, at a valid
blueprint whose settings.executionOrder and staticData are present. -/
theorem c1_witness : C1Props bpC1kvs :=
  claim_c1.2 bpC1kvs (by rfl)

/-- Claim C7 (code bug): on the exact example blueprint of the claim,
which has no settings key, blueprint_to_workflow raises KeyError
instead of returning the described Workflow (first conjunct).  After
the minimal repair of adding an empty settings object, the conversion
returns exactly the Workflow the claim describes: name My workflow, the
two nodes in input order, the second node of type
n8n-nodes-base.executeCommand, and the connections object of the input
unchanged (remaining conjuncts). -/
theorem claim_c7 :
    blueprint_to_workflow bp7 = .error (.keyError "settings")
    ∧ blueprint_to_workflow bp7settings = .ok w7
    ∧ w7.name = "My workflow"
    ∧ w7.nodes.length = 2
    ∧ w7.nodes.map Node.type
      = ["n8n-nodes-base.manualTrigger", "n8n-nodes-base.executeCommand"]
    ∧ pyGetItem bp7settings "connections" = .ok w7.connections :=
  ⟨rfl, rfl, rfl, rfl, rfl, rfl⟩

/-- A string field accepted by vStr was a JSON string. -/
theorem vStr_ok_shape {j : Json} {s : String} (h : vStr j = .ok s) :
    j = .str s := by
  cases j
  case str s0 =>
    simp only [vStr] at h
    injection h with h1
    rw [h1]
  all_goals exact absurd h (by simp [vStr])

/-- A number accepted by vNum serializes back to the input. -/
theorem vNum_ok_shape {j : Json} {v : PyNum} (h : vNum j = .ok v) :
    j = pyNumToJson v := by
  cases j
  case jint n =>
    simp only [vNum] at h
    injection h with h1
    rw [← h1]
    rfl
  case jfloat q =>
    simp only [vNum] at h
    injection h with h1
    rw [← h1]
    rfl
  all_goals exact absurd h (by simp [vNum])

/-- A dict accepted by vDict was a JSON object. -/
theorem vDict_ok_shape {j : Json} {kvs : JObj} (h : vDict j = .ok kvs) :
    j = .obj kvs := by
  cases j
  case obj kvs0 =>
    simp only [vDict] at h
    injection h with h1
    rw [h1]
  all_goals exact absurd h (by simp [vDict])

/-- Claim C9 (confirmed): whenever the node loop of
blueprint_to_workflow produces a Node from a blueprint node object, the
fourteen Node fields it does not pass to the constructor equal their
model defaults (even when the object carries keys of those names), and
the six passed fields come from the object, with parameters defaulting
to an empty mapping when the key is absent. -/
theorem claim_c9 (d : Json) (n : Node) (h : mkBlueprintNode d = .ok n) :
    C9Defaults n ∧ C9Sourcing d n := by
  unfold mkBlueprintNode at h
  cases d
  case obj dkvs =>
    cases h1 : dkvs.lookup "id" with
    | none => simp [pyGetItem, h1, exBind_error] at h
    | some idJ =>
    simp only [pyGetItem, h1, exBind_ok] at h
    cases h2 : dkvs.lookup "name" with
    | none => simp [h2, exBind_error] at h
    | some nameJ =>
    simp only [h2, exBind_ok] at h
    cases h3 : dkvs.lookup "type" with
    | none => simp [h3, exBind_error] at h
    | some typeJ =>
    simp only [h3, exBind_ok] at h
    cases h4 : dkvs.lookup "typeVersion" with
    | none => simp [h4, exBind_error] at h
    | some tvJ =>
    simp only [h4, exBind_ok] at h
    cases h5 : dkvs.lookup "position" with
    | none => simp [h5, exBind_error] at h
    | some posJ =>
    simp only [h5, exBind_ok, pyGetDefault] at h
    cases hv1 : vStr idJ with
    | error e => simp [hv1, exBind_error] at h
    | ok i =>
    simp only [hv1, exBind_ok] at h
    cases hv2 : vStr nameJ with
    | error e => simp [hv2, exBind_error] at h
    | ok nm =>
    simp only [hv2, exBind_ok] at h
    cases hv3 : vStr typeJ with
    | error e => simp [hv3, exBind_error] at h
    | ok ty =>
    simp only [hv3, exBind_ok] at h
    cases hv4 : vNum tvJ with
    | error e => simp [hv4, exBind_error] at h
    | ok tv =>
    simp only [hv4, exBind_ok] at h
    cases hv5 : vFloatList posJ with
    | error e => simp [hv5, exBind_error] at h
    | ok pos =>
    simp only [hv5, exBind_ok] at h
    cases hv6 : vDict ((dkvs.lookup "parameters").getD (.obj [])) with
    | error e => simp [hv6, exBind_error] at h
    | ok ps =>
    simp only [hv6, exBind_ok, exPure] at h
    injection h with h7
    subst h7
    constructor
    · exact ⟨rfl, rfl, rfl, rfl, rfl, rfl, rfl, rfl, rfl, rfl, rfl, rfl,
        rfl, rfl⟩
    · refine ⟨dkvs, rfl, ?_, ?_, ?_, ?_, ⟨posJ, h5, hv5⟩, ?_⟩
      · rw [h1, vStr_ok_shape hv1]
      · rw [h2, vStr_ok_shape hv2]
      · rw [h3, vStr_ok_shape hv3]
      · rw [h4, vNum_ok_shape hv4]
      · cases hp : dkvs.lookup "parameters" with
        | none =>
          rw [hp] at hv6
          simp only [Option.getD] at hv6
          simp only [vDict] at hv6
          injection hv6 with h8
          exact Or.inr ⟨rfl, h8.symm⟩
        | some pj =>
          rw [hp] at hv6
          simp only [Option.getD] at hv6
          exact Or.inl (by rw [vDict_ok_shape hv6])
  all_goals simp [pyGetItem, exBind_error] at h

/-- Witness for claim C9 at a node object that also specifies disabled,
notes and retryOnFail: the produced Node n9 keeps the defaults. -/
theorem c9_witness : C9Defaults n9 ∧ C9Sourcing nodeDocOverspecified n9 :=
  claim_c9 nodeDocOverspecified n9 (by rfl)

/-- Claim C10 (confirmed): passing the empty string as the name
override of create_workflow_from_blueprint leaves the blueprint name in
place, producing exactly the call behavior of passing no name at all
(if name: is Python truthiness, and the empty string is falsy). -/
theorem claim_c10 (fs : String → Option String)
    (parseJson : String → Option Json) (p : String)
    (tr : JObj → Except PyErr HRes) (w : Workflow) :
    create_workflow_from_blueprint fs parseJson p (some "") tr
      = create_workflow_from_blueprint fs parseJson p none tr
    ∧ overrideName w (some "") = w ∧ overrideName w none = w := by
  refine ⟨?_, rfl, rfl⟩
  simp [create_workflow_from_blueprint, overrideName]

/-- Claim C2 (corrected): when the HTTP response of any embedded
sub-client operation has a non-2xx status, the call fails with the
httpx.HTTPStatusError raised by response.raise_for_status, carrying the
status code and raw body of the response; it is not an ApiError (no
such class exists in the repository) and it does not pass through
N8NClient._request, which no sub-client calls and which wraps any httpx
error as N8NError with only a message (final conjunct). -/
theorem claim_c2 (r : HRes) (h : isSuccessStatus r.status = false)
    (lim : Int) (cur st wid : Option String) (incl : Bool) (idw : String)
    (w : Workflow) (cred : Credential) (tg : Tag) (ctype : String)
    (opts : Option AuditOptions) :
    WorkflowsClient.list lim cur (fun _ => .ok r)
      = .error (.httpStatusError r.status r.text)
    ∧ WorkflowsClient.get idw (fun _ => .ok r)
      = .error (.httpStatusError r.status r.text)
    ∧ WorkflowsClient.create w (fun _ => .ok r)
      = .error (.httpStatusError r.status r.text)
    ∧ WorkflowsClient.update idw w (fun _ _ => .ok r)
      = .error (.httpStatusError r.status r.text)
    ∧ WorkflowsClient.delete idw (fun _ => .ok r)
      = .error (.httpStatusError r.status r.text)
    ∧ ExecutionsClient.list lim cur st wid incl (fun _ => .ok r)
      = .error (.httpStatusError r.status r.text)
    ∧ ExecutionsClient.get idw incl (fun _ _ => .ok r)
      = .error (.httpStatusError r.status r.text)
    ∧ ExecutionsClient.delete idw (fun _ => .ok r)
      = .error (.httpStatusError r.status r.text)
    ∧ CredentialsClient.list lim cur (fun _ => .ok r)
      = .error (.httpStatusError r.status r.text)
    ∧ CredentialsClient.create cred (fun _ => .ok r)
      = .error (.httpStatusError r.status r.text)
    ∧ CredentialsClient.delete idw (fun _ => .ok r)
      = .error (.httpStatusError r.status r.text)
    ∧ CredentialsClient.get_schema ctype (fun _ => .ok r)
      = .error (.httpStatusError r.status r.text)
    ∧ TagsClient.list lim cur (fun _ => .ok r)
      = .error (.httpStatusError r.status r.text)
    ∧ TagsClient.create tg (fun _ => .ok r)
      = .error (.httpStatusError r.status r.text)
    ∧ TagsClient.get idw (fun _ => .ok r)
      = .error (.httpStatusError r.status r.text)
    ∧ TagsClient.delete idw (fun _ => .ok r)
      = .error (.httpStatusError r.status r.text)
    ∧ AuditClient.generate opts (fun _ => .ok r)
      = .error (.httpStatusError r.status r.text)
    ∧ (PyErr.httpStatusError r.status r.text).isApiError = false
    ∧ N8NClient.request (.ok r)
      = .error (.n8nError ("API request failed: "
          ++ PyErr.pyStr (.httpStatusError r.status r.text))) := by
  refine ⟨?_, ?_, ?_, ?_, ?_, ?_, ?_, ?_, ?_, ?_, ?_, ?_, ?_, ?_, ?_,
    ?_, ?_, rfl, ?_⟩
  all_goals
    simp [WorkflowsClient.list, WorkflowsClient.get, WorkflowsClient.create,
      WorkflowsClient.update, WorkflowsClient.delete, ExecutionsClient.list,
      ExecutionsClient.get, ExecutionsClient.delete, CredentialsClient.list,
      CredentialsClient.create, CredentialsClient.delete,
      CredentialsClient.get_schema, TagsClient.list, TagsClient.create,
      TagsClient.get, TagsClient.delete, AuditClient.generate,
      N8NClient.request, raiseForStatus, h, exBind_ok, exBind_error]

/-- Counterexample to claim C2 as stated: a workflows list call that
receives a 404 raises the httpx status error, which is not an ApiError,
and the facade entry point would instead produce an N8NError with only
a message, showing the call did not pass through it. -/
theorem c2_counterexample :
    WorkflowsClient.list 100 none (fun _ => .ok r404)
      = .error (.httpStatusError 404 "not found")
    ∧ (PyErr.httpStatusError 404 "not found").isApiError = false
    ∧ N8NClient.request (.ok r404)
      = .error (.n8nError "API request failed: HTTP status error 404") :=
  ⟨rfl, rfl, rfl⟩

/-- Witness for claim C2 at the concrete 404 response. -/
theorem c2_witness :
    WorkflowsClient.get "w1" (fun _ => .ok r404)
      = .error (.httpStatusError r404.status r404.text) :=
  (claim_c2 r404 (by rfl) 100 none none none false "w1" wWithId cred1
    tag1 "slackApi" none).2.1

/-- Claim C5 (corrected): the connectivity check performed during
construction converts a non-2xx status or a transport failure into a
raised error that aborts construction, so no client state is returned;
the error class is N8NError, not the ConnectionError the claim names
(N8NError is not a subclass of the Python builtin ConnectionError and
no ConnectionError class is defined in the repository). -/
theorem claim_c5 (bu : String) (ak : Option String) (t : Int) (r : HRes)
    (m : String) (h : isSuccessStatus r.status = false) :
    (∃ msg, N8NClient.init bu ak t (.ok r) = .error (.n8nError msg))
    ∧ N8NClient.init bu ak t (.error (.transportError m))
      = .error (.n8nError ("Failed to connect to N8N instance: " ++ m)) := by
  constructor
  · refine ⟨"Failed to connect to N8N instance: "
      ++ PyErr.pyStr (.httpStatusError r.status r.text), ?_⟩
    simp [N8NClient.init, N8NClient.verify_connection, raiseForStatus, h]
  · simp [N8NClient.init, N8NClient.verify_connection, PyErr.isHttpxError,
      PyErr.pyStr]

/-- Counterexample to claim C5 as stated: a 500 from the connectivity
check makes construction raise N8NError, which is not a
ConnectionError. -/
theorem c5_counterexample :
    N8NClient.init "http://localhost:5678" none 30 (.ok r500)
      = .error
          (.n8nError "Failed to connect to N8N instance: HTTP status error 500")
    ∧ (PyErr.n8nError
        "Failed to connect to N8N instance: HTTP status error 500").isConnectionError
      = false :=
  ⟨rfl, rfl⟩

/-- Witness for claim C5 at the concrete 500 response and a concrete
transport failure. -/
theorem c5_witness :
    (∃ msg, N8NClient.init "http://x" none 30 (.ok r500)
      = .error (.n8nError msg))
    ∧ N8NClient.init "http://x" none 30 (.error (.transportError "dns"))
      = .error (.n8nError ("Failed to connect to N8N instance: " ++ "dns")) :=
  claim_c5 "http://x" none 30 r500 "dns" (by rfl)

/-- Claim C6 (corrected): create submits
workflow.model_dump(exclude_none=True, exclude set to id), whose body
omits id and every null-valued optional field; update submits
workflow.dict(exclude_none=True), which omits null-valued optional
fields but keeps a non-null id (final conjunct), contrary to the claim
that both strip it. -/
theorem claim_c6 (w : Workflow) :
    (workflowDump w true).lookup "id" = none
    ∧ (w.createdAt = none → (workflowDump w true).lookup "createdAt" = none)
    ∧ (w.updatedAt = none → (workflowDump w true).lookup "updatedAt" = none)
    ∧ (w.id = none → (workflowDump w false).lookup "id" = none)
    ∧ (w.createdAt = none → (workflowDump w false).lookup "createdAt" = none)
    ∧ (w.updatedAt = none → (workflowDump w false).lookup "updatedAt" = none)
    ∧ ∀ s, w.id = some s →
        (workflowDump w false).lookup "id" = some (.str s) := by
  cases hid : w.id <;> cases hca : w.createdAt <;> cases hua : w.updatedAt <;>
    simp [workflowDump, optStrField, List.lookup, hid, hca, hua]

/-- Counterexample to claim C6 as stated: the body that update submits
for a Workflow with id abc still contains the id field. -/
theorem c6_counterexample :
    (workflowDump wWithId false).lookup "id" = some (.str "abc") := rfl

/-- Witness for claim C6 at the concrete Workflow wWithId: create
omits its id and update keeps it. -/
theorem c6_witness :
    (workflowDump wWithId true).lookup "id" = none
    ∧ (workflowDump wWithId false).lookup "id" = some (.str "abc") :=
  ⟨(claim_c6 wWithId).1, (claim_c6 wWithId).2.2.2.2.2.2 "abc" rfl⟩

/-- Claim C8 (corrected): construction strips trailing slashes from the
base URL (a URL with no trailing slash is unchanged), and the default
headers are exactly Content-Type and Accept, extended with
X-N8N-API-KEY if and only if a non-empty API key is provided: the
Python truthiness test if self.api_key also drops a provided empty
string, contrary to the claim that presence alone decides. -/
theorem claim_c8 (s k : String) (hs : s.data.getLast? ≠ some '/')
    (hk : k ≠ "") :
    N8NClient.rstripSlash s = s
    ∧ N8NClient.rstripSlash (s ++ "/") = N8NClient.rstripSlash s
    ∧ N8NClient.rstripSlash (s ++ "/") = s
    ∧ N8NClient.get_headers none
      = [("Content-Type", "application/json"),
         ("Accept", "application/json")]
    ∧ N8NClient.get_headers (some k)
      = [("Content-Type", "application/json"),
         ("Accept", "application/json"), ("X-N8N-API-KEY", k)]
    ∧ N8NClient.get_headers (some "")
      = [("Content-Type", "application/json"),
         ("Accept", "application/json")] := by
  have hstrip : N8NClient.rstripSlash s = s := by
    unfold N8NClient.rstripSlash
    have h2 : s.data.reverse.dropWhile (fun c => c = '/')
        = s.data.reverse := by
      cases hr : s.data.reverse with
      | nil => rfl
      | cons c t =>
        have hc : ¬ c = '/' := by
          intro hcc
          apply hs
          rw [← List.head?_reverse, hr, hcc]
          rfl
        simp [List.dropWhile_cons, hc]
    rw [h2, List.reverse_reverse]
  have happ : N8NClient.rstripSlash (s ++ "/") = N8NClient.rstripSlash s := by
    unfold N8NClient.rstripSlash
    have h1 : (s ++ "/").data = s.data ++ ['/'] := by
      cases s
      rfl
    rw [h1]
    simp [List.dropWhile_cons]
  refine ⟨hstrip, happ, happ.trans hstrip, rfl, ?_, rfl⟩
  simp [N8NClient.get_headers, hk]

/-- Counterexample to claim C8 as stated: with the empty string
provided as the API key, the headers do not contain X-N8N-API-KEY. -/
theorem c8_counterexample :
    N8NClient.get_headers (some "")
      = [("Content-Type", "application/json"),
         ("Accept", "application/json")]
    ∧ (N8NClient.get_headers (some "")).lookup "X-N8N-API-KEY" = none :=
  ⟨rfl, rfl⟩

/-- Witness for claim C8 at a URL without trailing slash and a
non-empty key. -/
theorem c8_witness :
    N8NClient.rstripSlash "http://x" = "http://x"
    ∧ N8NClient.rstripSlash ("http://x" ++ "/")
      = N8NClient.rstripSlash "http://x"
    ∧ N8NClient.rstripSlash ("http://x" ++ "/") = "http://x"
    ∧ N8NClient.get_headers none
      = [("Content-Type", "application/json"),
         ("Accept", "application/json")]
    ∧ N8NClient.get_headers (some "key")
      = [("Content-Type", "application/json"),
         ("Accept", "application/json"), ("X-N8N-API-KEY", "key")]
    ∧ N8NClient.get_headers (some "")
      = [("Content-Type", "application/json"),
         ("Accept", "application/json")] :=
  claim_c8 "http://x" "key" (by decide) (by decide)

end N8N
